import Mathlib

/-!
# libse-gto: the session facade of `src/libse-gto.c`

A shallow embedding of the public functions of `libse-gto.c` and the
properties of them that the specification states.

Modelling conventions.

* A pointer is a natural number, `0` being `NULL`.
* The contexts allocated with `calloc` live in `World.heap`; an address that
  holds no context is not a live `struct se_gto_ctx`.  A function that
  hands such an address to code which reads it has no defined result in C
  and yields `none` here.
* Byte buffers (`apdu`, `resp`, `atr`) live in `World.mem`.
* `errno` is a field of the world.
* The functions that `libse-gto.c` calls but does not define
  (`isot1_*`, `spi_*`, `log_teardown`, `calloc`, `getenv`) are the fields of
  `Callees`; every call of one is recorded in `World.trace`, in program order.
* A C `int` is an `Int`; the one arithmetic operation of the file, the
  negation in `errno = -err`, is reduced to 32 bits by `toInt32`.
-/

namespace SeGto

/-! ## Data model -/

/-- Addresses: `0` is the null pointer. -/
abbrev Ptr := Nat

/-- Bytes of a buffer. -/
abbrev Byte := Nat

/-- Values of the `log_fn` member: a null function pointer, the static
function `log_stderr` of `libse-gto.c`, or a function of the caller. -/
inductive LogFn where
  | null
  | log_stderr
  | user (addr : Nat)
deriving DecidableEq, Repr

/-- The members of `struct se_gto_ctx` that `libse-gto.c` reads or writes.
`T1` is the type of the link state `struct t1_state`, declared elsewhere. -/
structure se_gto_ctx (T1 : Type) where
  userdata : Ptr
  log_level : Int
  log_fn : LogFn
  gtodev : Option String
  t1 : T1

/-- The three logging shorthands used in `libse-gto.c`. -/
inductive LogPrio where
  | err
  | info
  | dbg
deriving DecidableEq, Repr

/-- One entry of the call trace: a call of a function that `libse-gto.c`
does not define, or a use of one of the logging shorthands (with its format
string). -/
inductive Event where
  | calloc
  | getenv
  | isot1_init
  | isot1_reset
  | isot1_get_atr (atr : Ptr) (r : Nat)
  | isot1_transceive (apdu : Ptr) (n : Int) (resp : Ptr) (r : Int)
  | isot1_bind (src dst : Nat)
  | isot1_release
  | spi_setup
  | spi_teardown
  | log_teardown
  | free (p : Ptr)
  | log (prio : LogPrio) (fmt : String)
deriving DecidableEq, Repr

/-- The state a call runs in. -/
structure World (T1 : Type) where
  heap : Ptr → Option (se_gto_ctx T1)
  mem : Ptr → List Byte
  errno : Int
  trace : List Event

/-- The functions called by `libse-gto.c` and defined elsewhere, as
functions of the state they are handed, and the constants of the headers.

* `isot1_transceive t1 apdu n resp r` yields the returned `int`, the new
  contents of the response buffer and the new link state;
* `isot1_get_atr t1 atr r` likewise for the ATR buffer;
* `spi_setup`, `spi_teardown` and `log_teardown` receive the whole context;
* `calloc` is the address returned by the allocation (`0`: it failed);
* `getenv_SE_GTO_LOG` is the value of the environment variable, if set;
* `long_bits` is the width of the C type `long` on the platform;
* `t1_zero` is the all-zero link state that `calloc` produces. -/
structure Callees (T1 : Type) where
  isot1_init : T1 → T1
  isot1_reset : T1 → Int × T1
  isot1_get_atr : T1 → List Byte → Nat → Int × List Byte × T1
  isot1_transceive : T1 → List Byte → Int → List Byte → Int → Int × List Byte × T1
  isot1_bind : T1 → Nat → Nat → T1
  isot1_release : T1 → T1
  spi_setup : se_gto_ctx T1 → Int × se_gto_ctx T1
  spi_teardown : se_gto_ctx T1 → se_gto_ctx T1
  log_teardown : se_gto_ctx T1 → se_gto_ctx T1
  calloc : Ptr
  getenv_SE_GTO_LOG : Option String
  SE_GTO_GTODEV : String
  long_bits : Nat
  t1_zero : T1

/-- Value of `EINVAL` in the Linux `errno.h`. -/
def EINVAL : Int := 22

/-- Value of `ENOMEM` in the Linux `errno.h`. -/
def ENOMEM : Int := 12

/-- Largest value of a C `int`. -/
def INT_MAX : Int := 2147483647

/-- Reduction of an integer to a 32-bit two's complement `int`. -/
def toInt32 (x : Int) : Int := (x + 2147483648) % 4294967296 - 2147483648

/-- Write `v` at address `p`. -/
def store {α : Type} (h : Ptr → α) (p : Ptr) (v : α) : Ptr → α :=
  fun q => if q = p then v else h q

/-! ## User data (`libse-gto.c`, lines 41-57) -/

/-- C function `se_gto_get_userdata`: `NULL` for a null context, the member
otherwise. -/
def se_gto_get_userdata {T1 : Type} (w : World T1) (ctx : Ptr) : Option Ptr :=
  if ctx = 0 then some 0
  else match w.heap ctx with
    | none => none
    | some c => some c.userdata

/-- C function `se_gto_set_userdata`: nothing for a null context, a write of
the member otherwise. -/
def se_gto_set_userdata {T1 : Type} (w : World T1) (ctx : Ptr) (userdata : Ptr) :
    Option (World T1) :=
  if ctx = 0 then some w
  else match w.heap ctx with
    | none => none
    | some c => some { w with heap := store w.heap ctx (some { c with userdata := userdata }) }

/-! ## Log level (`libse-gto.c`, lines 117-131) -/

/-- The assignments of `se_gto_set_log_level` on the context it points to. -/
def se_gto_ctx.set_log_level {T1 : Type} (c : se_gto_ctx T1) (level : Int) : se_gto_ctx T1 :=
  let level := if level < 0 then 0 else if level > 4 then 4 else level
  { c with log_level := level }

/-- C function `se_gto_get_log_level`. -/
def se_gto_get_log_level {T1 : Type} (w : World T1) (ctx : Ptr) : Option Int :=
  match w.heap ctx with
  | none => none
  | some c => some c.log_level

/-- C function `se_gto_set_log_level`. -/
def se_gto_set_log_level {T1 : Type} (w : World T1) (ctx : Ptr) (level : Int) :
    Option (World T1) :=
  match w.heap ctx with
  | none => none
  | some c => some { w with heap := store w.heap ctx (some (c.set_log_level level)) }

/-! ## Reset (`libse-gto.c`, lines 157-171) -/

/-- C function `se_gto_reset`. -/
def se_gto_reset {T1 : Type} (E : Callees T1) (w : World T1) (ctx : Ptr) (atr : Ptr) (r : Nat) :
    Option (Int × World T1) :=
  match w.heap ctx with
  | none => none
  | some c =>
    let res := E.isot1_reset c.t1
    let err := res.1
    let w1 : World T1 :=
      { w with heap := store w.heap ctx (some { c with t1 := res.2 }),
               trace := w.trace ++ [Event.isot1_reset] }
    if err < 0 then
      some (err, { w1 with errno := toInt32 (-err) })
    else
      let got := E.isot1_get_atr res.2 (w.mem atr) r
      let err := got.1
      let w2 : World T1 :=
        { w1 with heap := store w1.heap ctx (some { c with t1 := got.2.2 }),
                  mem := store w.mem atr got.2.1,
                  trace := w1.trace ++ [Event.isot1_get_atr atr r] }
      if err < 0 then
        some (err, { w2 with errno := toInt32 (-err) })
      else
        some (err, w2)

/-! ## APDU exchange (`libse-gto.c`, lines 173-190) -/

/-- C function `se_gto_apdu_transmit`. -/
def se_gto_apdu_transmit {T1 : Type} (E : Callees T1) (w : World T1) (ctx : Ptr)
    (apdu : Ptr) (n : Int) (resp : Ptr) (r : Int) : Option (Int × World T1) :=
  if apdu = 0 ∨ n < 4 ∨ resp = 0 ∨ r < 2 then
    some (-1, { w with errno := EINVAL })
  else
    match w.heap ctx with
    | none => none
    | some c =>
      let res := E.isot1_transceive c.t1 (w.mem apdu) n (w.mem resp) r
      let w1 : World T1 :=
        { w with heap := store w.heap ctx (some { c with t1 := res.2.2 }),
                 mem := store w.mem resp res.2.1,
                 trace := w.trace ++ [Event.isot1_transceive apdu n resp r] }
      let r := res.1
      if r < 0 then
        some (-1, { w1 with errno := toInt32 (-r),
                            trace := w1.trace ++
                              [Event.log LogPrio.err "failed to read APDU response, %s\n"] })
      else if r < 2 then
        some (-1, { w1 with trace := w1.trace ++
                              [Event.log LogPrio.err
                                "APDU response too short, only %d bytes, needs 2 at least\n"] })
      else
        some (r, w1)

/-! ## Open and close (`libse-gto.c`, lines 192-215) -/

/-- C function `se_gto_open`. -/
def se_gto_open {T1 : Type} (E : Callees T1) (w : World T1) (ctx : Ptr) :
    Option (Int × World T1) :=
  match w.heap ctx with
  | none => none
  | some c =>
    let res := E.spi_setup c
    if res.1 < 0 then
      some (-1, { w with heap := store w.heap ctx (some res.2),
                         trace := w.trace ++
                           [Event.log LogPrio.info "eSE GTO: using %s\n", Event.spi_setup,
                            Event.log LogPrio.err "failed to set up se-gto.\n"] })
    else
      let c1 : se_gto_ctx T1 := { res.2 with t1 := E.isot1_bind res.2.t1 0x2 0x1 }
      some (0, { w with heap := store w.heap ctx (some c1),
                        trace := w.trace ++
                          [Event.log LogPrio.info "eSE GTO: using %s\n", Event.spi_setup,
                           Event.isot1_bind 0x2 0x1,
                           Event.log LogPrio.dbg "fd: spi=%d\n"] })

/-- C function `se_gto_close`.  It hands the context to `isot1_release`,
`spi_teardown` and `log_teardown`, then frees it; there is no test of the
pointer and no record that the context was closed before.  On an address
that holds no live context the callees read, and `free` releases, memory that
is not allocated: that has no defined result (`none`). -/
def se_gto_close {T1 : Type} (E : Callees T1) (w : World T1) (ctx : Ptr) :
    Option (Int × World T1) :=
  match w.heap ctx with
  | none => none
  | some c =>
    let c1 : se_gto_ctx T1 := { c with t1 := E.isot1_release c.t1 }
    let c2 := E.spi_teardown c1
    let c3 := E.log_teardown c2
    let w1 : World T1 :=
      { w with heap := store w.heap ctx (some c3),
               trace := w.trace ++
                 [Event.isot1_release, Event.spi_teardown, Event.log_teardown] }
    some (0, { w1 with heap := store w1.heap ctx none,
                       trace := w1.trace ++ [Event.free ctx] })

/-! ## Creation and the verbosity of the environment (`libse-gto.c`, lines 59-115) -/

/-- C library `isspace` in the "C" locale: space and the controls 9 to 13. -/
def isspace (c : Char) : Bool := c.toNat = 32 || (9 ≤ c.toNat && c.toNat ≤ 13)

/-- C library `isdigit`. -/
def isdigit (c : Char) : Bool := 48 ≤ c.toNat && c.toNat ≤ 57

/-- The digit loop of `strtol` in base 10: the value read so far and the
first character that is not a digit. -/
def scanDigits : Nat → List Char → Nat × List Char
  | acc, [] => (acc, [])
  | acc, c :: cs =>
    if isdigit c then scanDigits (acc * 10 + (c.toNat - 48)) cs else (acc, c :: cs)

/-- Largest value of a `long` of the given width. -/
def LONG_MAX (bits : Nat) : Int := 2 ^ (bits - 1) - 1

/-- Smallest value of a `long` of the given width. -/
def LONG_MIN (bits : Nat) : Int := -(2 ^ (bits - 1))

/-- C library `strtol (nptr, &endptr, 10)` for a `long` of the given width,
after ISO C 7.22.1.4: white space is skipped, an optional sign is read, then
the longest run of decimal digits; with no digit nothing is converted, the
result is `0` and `endptr` is `nptr`; a value out of the range of `long` is
replaced by `LONG_MAX` or `LONG_MIN`.  The result is the value and the
characters from `endptr` on. -/
def strtol (bits : Nat) (nptr : List Char) : Int × List Char :=
  let s := nptr.dropWhile isspace
  let neg : Bool := match s with
    | c :: _ => c.toNat = 45
    | [] => false
  let body := match s with
    | c :: cs => if c.toNat = 45 || c.toNat = 43 then cs else s
    | [] => s
  match body with
  | [] => (0, nptr)
  | c :: _ =>
    if isdigit c then
      let d := scanDigits 0 body
      let v : Int := if neg then -(d.1 : Int) else (d.1 : Int)
      let v := if v > LONG_MAX bits then LONG_MAX bits
               else if v < LONG_MIN bits then LONG_MIN bits else v
      (v, d.2)
    else (0, nptr)

/-- C library `strncmp (a, b, n) == 0` on strings without an embedded
terminator: the first `n` characters agree, the end of a string included. -/
def strncmp_eq (a b : List Char) (n : Nat) : Bool := a.take n == b.take n

/-- Static C function `log_level`.  The `long` returned by `strtol` is stored
in the `int` variable `prio`, which keeps its low 32 bits. -/
def log_level (bits : Nat) (priority : String) : Int :=
  let res := strtol bits priority.toList
  let prio := toInt32 res.1
  let stop : Bool := match res.2 with
    | [] => true
    | c :: _ => isspace c
  if stop then prio
  else if strncmp_eq priority.toList "err".toList 3 then 0
  else if strncmp_eq priority.toList "info".toList 4 then 3
  else if strncmp_eq priority.toList "debug".toList 5 then 4
  else 0

/-- C function `se_gto_new`.  The result is the returned `int`, the pointer
stored in `*c` (`none`: nothing is stored) and the new world. -/
def se_gto_new {T1 : Type} (E : Callees T1) (w : World T1) :
    Int × Option Ptr × World T1 :=
  let ctx := E.calloc
  if ctx = 0 then
    (-1, none, { w with errno := ENOMEM, trace := w.trace ++ [Event.calloc] })
  else
    let c0 : se_gto_ctx T1 :=
      { userdata := 0, log_level := 0, log_fn := LogFn.null, gtodev := none, t1 := E.t1_zero }
    let c1 : se_gto_ctx T1 := { c0 with t1 := E.isot1_init c0.t1 }
    let c2 : se_gto_ctx T1 := { c1 with log_fn := LogFn.log_stderr }
    let c3 : se_gto_ctx T1 := { c2 with gtodev := some E.SE_GTO_GTODEV }
    let c4 : se_gto_ctx T1 := { c3 with log_level := 2 }
    let c5 : se_gto_ctx T1 := match E.getenv_SE_GTO_LOG with
      | none => c4
      | some env => c4.set_log_level (log_level E.long_bits env)
    (0, some ctx,
      { w with heap := store w.heap ctx (some c5),
               trace := w.trace ++
                 [Event.calloc, Event.isot1_init, Event.getenv,
                  Event.log LogPrio.dbg "ctx %p created\n",
                  Event.log LogPrio.dbg "log_level=%d\n"] })

/-! ## Concrete worlds and callees -/

/-- A context as `se_gto_new` leaves it, with link state `0`. -/
def sampleCtx : se_gto_ctx Nat :=
  { userdata := 0, log_level := 2, log_fn := LogFn.log_stderr, gtodev := some "/dev/gto",
    t1 := 0 }

/-- A world with one live context at address `1`, a four-byte command at
address `100`, an empty response buffer at `200`, and the given `errno`. -/
def sampleWorld (errno : Int) : World Nat :=
  { heap := fun p => if p = 1 then some sampleCtx else none,
    mem := fun p => if p = 100 then [0x00, 0xA4, 0x04, 0x00] else [],
    errno := errno,
    trace := [] }

/-- Callees whose calls all return `rc`, fill the buffer they are given with
`out` and count the calls in the link state; `env` is the value of
`SE_GTO_LOG` and `bits` the width of `long`. -/
def sampleCallees (rc : Int) (out : List Byte) (env : Option String) (bits : Nat) :
    Callees Nat :=
  { isot1_init := fun t => t,
    isot1_reset := fun t => (rc, t + 1),
    isot1_get_atr := fun t _ _ => (rc, out, t + 1),
    isot1_transceive := fun t _ _ _ _ => (rc, out, t + 1),
    isot1_bind := fun t _ _ => t + 1,
    isot1_release := fun t => t + 1,
    spi_setup := fun c => (rc, c),
    spi_teardown := fun c => c,
    log_teardown := fun c => c,
    calloc := 1,
    getenv_SE_GTO_LOG := env,
    SE_GTO_GTODEV := "/dev/gto",
    long_bits := bits,
    t1_zero := 0 }

/-! ## Auxiliary facts -/

/-- Reading the address just written. -/
theorem store_same {α : Type} (h : Ptr → α) (p : Ptr) (v : α) : store h p v p = v := by
  simp [store]

/-- Reading another address than the one written. -/
theorem store_other {α : Type} (h : Ptr → α) (p q : Ptr) (v : α) (hq : q ≠ p) :
    store h p v q = h q := by
  simp [store, hq]

/-- A second write at the same address replaces the first. -/
theorem store_store {α : Type} (h : Ptr → α) (p : Ptr) (v u : α) :
    store (store h p v) p u = store h p u := by
  funext q
  by_cases hq : q = p <;> simp [store, hq]

/-- An integer within the range of `int` is its own 32-bit reduction. -/
theorem toInt32_of_range (x : Int) (h0 : -2147483648 ≤ x) (h1 : x ≤ 2147483647) :
    toInt32 x = x := by
  unfold toInt32
  rw [Int.emod_eq_of_lt (by omega) (by omega)]
  omega

/-! ## The APDU exchange -/

/-- C1: a call of `se_gto_apdu_transmit` with a null command, `n < 4`, a null
response buffer or `r < 2` returns `-1` with `errno = EINVAL`; the exchange
is not invoked (the trace is the one before the call) and contexts, link
states and buffers are unchanged.  This holds for every context pointer. -/
theorem se_gto_apdu_transmit_invalid_argument {T1 : Type} (E : Callees T1) (w : World T1)
    (ctx apdu : Ptr) (n : Int) (resp : Ptr) (r : Int)
    (h : apdu = 0 ∨ n < 4 ∨ resp = 0 ∨ r < 2) :
    ∃ w1, se_gto_apdu_transmit E w ctx apdu n resp r = some (-1, w1) ∧
      w1.errno = EINVAL ∧ w1.trace = w.trace ∧ w1.heap = w.heap ∧ w1.mem = w.mem := by
  refine ⟨{ w with errno := EINVAL }, ?_, rfl, rfl, rfl, rfl⟩
  simp [se_gto_apdu_transmit, h]

/-- Witness of C1: a three-byte command on the sample world. -/
theorem se_gto_apdu_transmit_invalid_argument_witness :
    ((0 : Ptr) = 0 ∨ (3 : Int) < 4 ∨ (200 : Ptr) = 0 ∨ (2 : Int) < 2) ∧
    ∃ w1, se_gto_apdu_transmit (sampleCallees 2 [0x90, 0x00] none 64) (sampleWorld 0)
        1 0 3 200 2 = some (-1, w1) ∧
      w1.errno = EINVAL ∧ w1.trace = (sampleWorld 0).trace ∧
      w1.heap = (sampleWorld 0).heap ∧ w1.mem = (sampleWorld 0).mem :=
  ⟨by decide, se_gto_apdu_transmit_invalid_argument _ _ 1 0 3 200 2 (by decide)⟩

/-- The short-response path in general: with valid arguments and an exchange
that returns `0` or `1`, `se_gto_apdu_transmit` returns `-1` and `errno`
keeps the value it had before the call. -/
theorem se_gto_apdu_transmit_short_keeps_errno {T1 : Type} (E : Callees T1) (w : World T1)
    (ctx apdu : Ptr) (n : Int) (resp : Ptr) (r : Int) (c : se_gto_ctx T1)
    (hctx : w.heap ctx = some c)
    (hargs : apdu ≠ 0 ∧ 4 ≤ n ∧ resp ≠ 0 ∧ 2 ≤ r)
    (h0 : 0 ≤ (E.isot1_transceive c.t1 (w.mem apdu) n (w.mem resp) r).1)
    (h2 : (E.isot1_transceive c.t1 (w.mem apdu) n (w.mem resp) r).1 < 2) :
    ∃ w1, se_gto_apdu_transmit E w ctx apdu n resp r = some (-1, w1) ∧
      w1.errno = w.errno := by
  obtain ⟨ha, hn, hr, hcap⟩ := hargs
  have hguard : ¬ (apdu = 0 ∨ n < 4 ∨ resp = 0 ∨ r < 2) := by
    rintro (h | h | h | h)
    · exact ha h
    · omega
    · exact hr h
    · omega
  unfold se_gto_apdu_transmit
  rw [if_neg hguard]
  simp only [hctx]
  rw [if_neg (by omega), if_pos h2]
  exact ⟨_, rfl, rfl⟩

/-- C2 (evaluation at the failing input): with `errno = EINVAL` before the
call, valid arguments and an exchange that returns `1`, the call reports
`(-1, EINVAL)`, the same pair as the invalid-argument failure of a
three-byte command; with `errno = 5` before the call it reports `(-1, 5)`,
the same pair as an exchange that failed with `-5`. -/
theorem se_gto_apdu_transmit_short_response_report :
    ((se_gto_apdu_transmit (sampleCallees 1 [0x90] none 64) (sampleWorld EINVAL)
        1 100 4 200 2).map (fun x => (x.1, x.2.errno)) = some (-1, EINVAL)) ∧
    ((se_gto_apdu_transmit (sampleCallees 1 [0x90] none 64) (sampleWorld 0)
        1 100 3 200 2).map (fun x => (x.1, x.2.errno)) = some (-1, EINVAL)) ∧
    ((se_gto_apdu_transmit (sampleCallees 1 [0x90] none 64) (sampleWorld 5)
        1 100 4 200 2).map (fun x => (x.1, x.2.errno)) = some (-1, 5)) ∧
    ((se_gto_apdu_transmit (sampleCallees (-5) [] none 64) (sampleWorld 0)
        1 100 4 200 2).map (fun x => (x.1, x.2.errno)) = some (-1, 5)) := by
  refine ⟨?_, ?_, ?_, ?_⟩ <;> decide

/-- C3: with valid arguments and a live context, when the exchange returns
`k ≥ 2` the call returns `k`, the response buffer is the one the exchange
wrote, `errno` is untouched and the exchange was invoked once; and for every
call whatsoever a non-negative return value is at least `2`. -/
theorem se_gto_apdu_transmit_success {T1 : Type} (E : Callees T1) (w : World T1)
    (ctx apdu : Ptr) (n : Int) (resp : Ptr) (r : Int) :
    (∀ (c : se_gto_ctx T1) (k : Int), w.heap ctx = some c →
        apdu ≠ 0 → 4 ≤ n → resp ≠ 0 → 2 ≤ r →
        (E.isot1_transceive c.t1 (w.mem apdu) n (w.mem resp) r).1 = k → 2 ≤ k →
        ∃ w1, se_gto_apdu_transmit E w ctx apdu n resp r = some (k, w1) ∧
          w1.mem resp = (E.isot1_transceive c.t1 (w.mem apdu) n (w.mem resp) r).2.1 ∧
          w1.errno = w.errno ∧
          w1.trace = w.trace ++ [Event.isot1_transceive apdu n resp r]) ∧
    (∀ (ret : Int) (w1 : World T1),
        se_gto_apdu_transmit E w ctx apdu n resp r = some (ret, w1) → 0 ≤ ret → 2 ≤ ret) := by
  constructor
  · intro c k hctx ha hn hr hcap hk hk2
    have hguard : ¬ (apdu = 0 ∨ n < 4 ∨ resp = 0 ∨ r < 2) := by
      rintro (h | h | h | h)
      · exact ha h
      · omega
      · exact hr h
      · omega
    unfold se_gto_apdu_transmit
    rw [if_neg hguard]
    simp only [hctx, hk]
    rw [if_neg (by omega), if_neg (by omega)]
    exact ⟨_, rfl, store_same _ _ _, rfl, rfl⟩
  · intro ret w1 h hret
    unfold se_gto_apdu_transmit at h
    split at h
    · simp only [Option.some.injEq, Prod.mk.injEq] at h
      omega
    · split at h
      · exact absurd h (by simp)
      · simp only at h
        split at h
        · simp only [Option.some.injEq, Prod.mk.injEq] at h
          omega
        · split at h
          · simp only [Option.some.injEq, Prod.mk.injEq] at h
            omega
          · simp only [Option.some.injEq, Prod.mk.injEq] at h
            omega

/-- Witness of C3: a four-byte command answered by the status word `90 00`. -/
theorem se_gto_apdu_transmit_success_witness :
    ((sampleWorld 0).heap 1 = some sampleCtx ∧ (100 : Ptr) ≠ 0 ∧ (4 : Int) ≤ 4 ∧
      (200 : Ptr) ≠ 0 ∧ (2 : Int) ≤ 2 ∧
      ((sampleCallees 2 [0x90, 0x00] none 64).isot1_transceive sampleCtx.t1
        ((sampleWorld 0).mem 100) 4 ((sampleWorld 0).mem 200) 2).1 = 2 ∧ (2 : Int) ≤ 2) ∧
    ∃ w1, se_gto_apdu_transmit (sampleCallees 2 [0x90, 0x00] none 64) (sampleWorld 0)
        1 100 4 200 2 = some (2, w1) ∧
      w1.mem 200 = ((sampleCallees 2 [0x90, 0x00] none 64).isot1_transceive sampleCtx.t1
        ((sampleWorld 0).mem 100) 4 ((sampleWorld 0).mem 200) 2).2.1 ∧
      w1.errno = (sampleWorld 0).errno ∧
      w1.trace = (sampleWorld 0).trace ++ [Event.isot1_transceive 100 4 200 2] :=
  ⟨⟨rfl, by decide, by decide, by decide, by decide, rfl, by decide⟩,
   (se_gto_apdu_transmit_success (sampleCallees 2 [0x90, 0x00] none 64) (sampleWorld 0)
      1 100 4 200 2).1 sampleCtx 2 rfl (by decide) (by decide) (by decide) (by decide) rfl
      (by decide)⟩

/-- C4: with valid arguments and a live context, when the exchange returns
`-e` for an `int` `e > 0`, the call returns `-1` with `errno = e`, and the
exchange was invoked exactly once: the call adds to the trace one exchange
followed by one error log. -/
theorem se_gto_apdu_transmit_exchange_error {T1 : Type} (E : Callees T1) (w : World T1)
    (ctx apdu : Ptr) (n : Int) (resp : Ptr) (r : Int) (c : se_gto_ctx T1) (e : Int)
    (hctx : w.heap ctx = some c)
    (hargs : apdu ≠ 0 ∧ 4 ≤ n ∧ resp ≠ 0 ∧ 2 ≤ r)
    (he : 0 < e ∧ e ≤ INT_MAX)
    (hex : (E.isot1_transceive c.t1 (w.mem apdu) n (w.mem resp) r).1 = -e) :
    ∃ w1, se_gto_apdu_transmit E w ctx apdu n resp r = some (-1, w1) ∧
      w1.errno = e ∧
      w1.trace = w.trace ++ [Event.isot1_transceive apdu n resp r,
        Event.log LogPrio.err "failed to read APDU response, %s\n"] := by
  obtain ⟨ha, hn, hr, hcap⟩ := hargs
  obtain ⟨he0, he1⟩ := he
  unfold INT_MAX at he1
  have hguard : ¬ (apdu = 0 ∨ n < 4 ∨ resp = 0 ∨ r < 2) := by
    rintro (h | h | h | h)
    · exact ha h
    · omega
    · exact hr h
    · omega
  unfold se_gto_apdu_transmit
  rw [if_neg hguard]
  simp only [hctx, hex]
  rw [if_pos (by omega)]
  refine ⟨_, rfl, ?_, ?_⟩
  · simp only [neg_neg]
    exact toInt32_of_range e (by omega) he1
  · simp

/-- Witness of C4: an exchange that fails with `-5` (`EIO`). -/
theorem se_gto_apdu_transmit_exchange_error_witness :
    ((sampleWorld 0).heap 1 = some sampleCtx ∧
      ((100 : Ptr) ≠ 0 ∧ (4 : Int) ≤ 4 ∧ (200 : Ptr) ≠ 0 ∧ (2 : Int) ≤ 2) ∧
      ((0 : Int) < 5 ∧ (5 : Int) ≤ INT_MAX) ∧
      ((sampleCallees (-5) [] none 64).isot1_transceive sampleCtx.t1
        ((sampleWorld 0).mem 100) 4 ((sampleWorld 0).mem 200) 2).1 = -5) ∧
    ∃ w1, se_gto_apdu_transmit (sampleCallees (-5) [] none 64) (sampleWorld 0)
        1 100 4 200 2 = some (-1, w1) ∧
      w1.errno = 5 ∧
      w1.trace = (sampleWorld 0).trace ++ [Event.isot1_transceive 100 4 200 2,
        Event.log LogPrio.err "failed to read APDU response, %s\n"] :=
  ⟨⟨rfl, by decide, by decide, rfl⟩,
   se_gto_apdu_transmit_exchange_error (sampleCallees (-5) [] none 64) (sampleWorld 0)
     1 100 4 200 2 sampleCtx 5 rfl (by decide) (by decide) rfl⟩

/-! ## Close -/

/-- C5 (counterexample): on the sample world the first `se_gto_close` of the
context at address `1` returns `0` and frees it, and the second
`se_gto_close` of the same pointer has no defined result: it is not a call
that returns `0` and does nothing. -/
theorem se_gto_close_twice_undefined :
    ((se_gto_close (sampleCallees 0 [] none 64) (sampleWorld 0) 1).map Prod.fst = some 0) ∧
    ((se_gto_close (sampleCallees 0 [] none 64) (sampleWorld 0) 1).bind
        (fun x => se_gto_close (sampleCallees 0 [] none 64) x.2 1)).isNone = true ∧
    ¬ (∀ (E : Callees Nat) (w : World Nat) (ctx : Ptr) (c : se_gto_ctx Nat),
        w.heap ctx = some c →
        ∃ w1 w2, se_gto_close E w ctx = some (0, w1) ∧
          se_gto_close E w1 ctx = some (0, w2) ∧ w2.trace = w1.trace) := by
  refine ⟨rfl, rfl, ?_⟩
  intro h
  obtain ⟨w1, w2, h1, h2, _⟩ := h (sampleCallees 0 [] none 64) (sampleWorld 0) 1 sampleCtx rfl
  have hw : w1.heap 1 = none := by
    simp only [se_gto_close, sampleWorld, if_true, Option.some.injEq, Prod.mk.injEq,
      true_and] at h1
    rw [← h1]
    simp [store]
  simp [se_gto_close, hw] at h2

/-- C5 (amended): `se_gto_close` on a live context returns `0`; it invokes
`isot1_release`, `spi_teardown`, `log_teardown` and `free` of the context
once each, in this order, and the context is no longer live afterwards,
while every other context is kept.  A context that `se_gto_new` has just
created and that was never opened is live, so the same holds for it. -/
theorem se_gto_close_live {T1 : Type} (E : Callees T1) (w : World T1) (ctx : Ptr) :
    (∀ c : se_gto_ctx T1, w.heap ctx = some c →
      ∃ w1, se_gto_close E w ctx = some (0, w1) ∧
        w1.trace = w.trace ++ [Event.isot1_release, Event.spi_teardown,
          Event.log_teardown, Event.free ctx] ∧
        w1.heap ctx = none ∧ (∀ q, q ≠ ctx → w1.heap q = w.heap q) ∧
        w1.errno = w.errno) ∧
    (E.calloc ≠ 0 →
      ∃ w1, se_gto_close E (se_gto_new E w).2.2 E.calloc = some (0, w1) ∧
        w1.trace = (se_gto_new E w).2.2.trace ++ [Event.isot1_release, Event.spi_teardown,
          Event.log_teardown, Event.free E.calloc] ∧
        w1.heap E.calloc = none) := by
  have key : ∀ (v : World T1) (p : Ptr) (c : se_gto_ctx T1), v.heap p = some c →
      ∃ w1, se_gto_close E v p = some (0, w1) ∧
        w1.trace = v.trace ++ [Event.isot1_release, Event.spi_teardown,
          Event.log_teardown, Event.free p] ∧
        w1.heap p = none ∧ (∀ q, q ≠ p → w1.heap q = v.heap q) ∧
        w1.errno = v.errno := by
    intro v p c hc
    unfold se_gto_close
    simp only [hc]
    refine ⟨_, rfl, ?_, ?_, ?_, rfl⟩
    · simp
    · exact store_same _ _ _
    · intro q hq
      simp [store, hq]
  refine ⟨fun c hc => key w ctx c hc, ?_⟩
  intro hne
  have hlive : ∃ c, (se_gto_new E w).2.2.heap E.calloc = some c := by
    unfold se_gto_new
    rw [if_neg hne]
    exact ⟨_, store_same _ _ _⟩
  obtain ⟨c, hc⟩ := hlive
  obtain ⟨w1, h1, h2, h3, _, _⟩ := key _ _ c hc
  exact ⟨w1, h1, h2, h3⟩

/-- Witness of C5 (amended): the context of the sample world, and an
allocation that succeeds. -/
theorem se_gto_close_live_witness :
    ((sampleWorld 0).heap 1 = some sampleCtx ∧
      ∃ w1, se_gto_close (sampleCallees 0 [] none 64) (sampleWorld 0) 1 = some (0, w1) ∧
        w1.trace = (sampleWorld 0).trace ++ [Event.isot1_release, Event.spi_teardown,
          Event.log_teardown, Event.free 1] ∧
        w1.heap 1 = none ∧ (∀ q, q ≠ 1 → w1.heap q = (sampleWorld 0).heap q) ∧
        w1.errno = (sampleWorld 0).errno) ∧
    ((sampleCallees 0 [] none 64).calloc ≠ 0 ∧
      ∃ w1, se_gto_close (sampleCallees 0 [] none 64)
          (se_gto_new (sampleCallees 0 [] none 64) (sampleWorld 0)).2.2
          (sampleCallees 0 [] none 64).calloc = some (0, w1) ∧
        w1.trace = (se_gto_new (sampleCallees 0 [] none 64) (sampleWorld 0)).2.2.trace ++
          [Event.isot1_release, Event.spi_teardown, Event.log_teardown,
           Event.free (sampleCallees 0 [] none 64).calloc] ∧
        w1.heap (sampleCallees 0 [] none 64).calloc = none) :=
  ⟨⟨rfl, (se_gto_close_live (sampleCallees 0 [] none 64) (sampleWorld 0) 1).1 sampleCtx rfl⟩,
   ⟨by decide, (se_gto_close_live (sampleCallees 0 [] none 64) (sampleWorld 0) 1).2
      (by decide)⟩⟩

/-! ## Log level -/

/-- C6: on a live context, after `se_gto_set_log_level (ctx, level)` the
value returned by `se_gto_get_log_level (ctx)` is `max 0 (min 4 level)`: `0`
below `0`, `4` above `4`, `level` itself within `0..4`; it lies within
`0..4`, and setting the value read back leaves the world as it is. -/
theorem se_gto_set_get_log_level {T1 : Type} (w : World T1) (ctx : Ptr) (level : Int)
    (c : se_gto_ctx T1) (hctx : w.heap ctx = some c) :
    ∃ w1, se_gto_set_log_level w ctx level = some w1 ∧
      se_gto_get_log_level w1 ctx = some (max 0 (min 4 level)) ∧
      (level < 0 → se_gto_get_log_level w1 ctx = some 0) ∧
      (4 < level → se_gto_get_log_level w1 ctx = some 4) ∧
      (0 ≤ level → level ≤ 4 → se_gto_get_log_level w1 ctx = some level) ∧
      (0 ≤ max 0 (min 4 level) ∧ max 0 (min 4 level) ≤ 4) ∧
      se_gto_set_log_level w1 ctx (max 0 (min 4 level)) = some w1 := by
  have hclamp : (if level < 0 then (0 : Int) else if level > 4 then 4 else level)
      = max 0 (min 4 level) := by
    split_ifs <;> omega
  have hget : se_gto_get_log_level
      ({ w with heap := store w.heap ctx (some (c.set_log_level level)) } : World T1) ctx
      = some (max 0 (min 4 level)) := by
    simp only [se_gto_get_log_level, store_same, se_gto_ctx.set_log_level, hclamp]
  refine ⟨{ w with heap := store w.heap ctx (some (c.set_log_level level)) }, ?_, hget,
    ?_, ?_, ?_, ?_, ?_⟩
  · simp [se_gto_set_log_level, hctx]
  · intro h
    rw [hget]
    congr 1
    omega
  · intro h
    rw [hget]
    congr 1
    omega
  · intro h0 h4
    rw [hget]
    congr 1
    omega
  · omega
  · have hidem : (if max 0 (min 4 level) < 0 then (0 : Int)
        else if max 0 (min 4 level) > 4 then 4 else max 0 (min 4 level))
        = max 0 (min 4 level) := by
      split_ifs <;> omega
    simp only [se_gto_set_log_level, store_same, se_gto_ctx.set_log_level, hclamp, hidem,
      store_store]

/-- Witness of C6: level `7` on the sample world. -/
theorem se_gto_set_get_log_level_witness :
    (sampleWorld 0).heap 1 = some sampleCtx ∧
    ∃ w1, se_gto_set_log_level (sampleWorld 0) 1 7 = some w1 ∧
      se_gto_get_log_level w1 1 = some (max 0 (min 4 7)) ∧
      ((7 : Int) < 0 → se_gto_get_log_level w1 1 = some 0) ∧
      ((4 : Int) < 7 → se_gto_get_log_level w1 1 = some 4) ∧
      ((0 : Int) ≤ 7 → (7 : Int) ≤ 4 → se_gto_get_log_level w1 1 = some 7) ∧
      ((0 : Int) ≤ max 0 (min 4 7) ∧ max 0 (min 4 7) ≤ (4 : Int)) ∧
      se_gto_set_log_level w1 1 (max 0 (min 4 7)) = some w1 :=
  ⟨rfl, se_gto_set_get_log_level (sampleWorld 0) 1 7 sampleCtx rfl⟩

/-! ## Open -/

/-- C7: on a live context `se_gto_open` returns `0` exactly when `spi_setup`
does not return a negative value; it then binds the node addresses `0x2` and
`0x1` with `isot1_bind`; when `spi_setup` fails it returns `-1` and makes no
bind; in both cases no call it makes is `isot1_reset` or `isot1_get_atr`. -/
theorem se_gto_open_spec {T1 : Type} (E : Callees T1) (w : World T1) (ctx : Ptr)
    (c : se_gto_ctx T1) (hctx : w.heap ctx = some c) :
    ∃ ret w1, se_gto_open E w ctx = some (ret, w1) ∧
      (ret = 0 ↔ 0 ≤ (E.spi_setup c).1) ∧
      (0 ≤ (E.spi_setup c).1 →
        w1.trace = w.trace ++ [Event.log LogPrio.info "eSE GTO: using %s\n",
          Event.spi_setup, Event.isot1_bind 0x2 0x1, Event.log LogPrio.dbg "fd: spi=%d\n"] ∧
        w1.heap ctx = some { (E.spi_setup c).2 with
          t1 := E.isot1_bind (E.spi_setup c).2.t1 0x2 0x1 }) ∧
      ((E.spi_setup c).1 < 0 →
        ret = -1 ∧
        w1.trace = w.trace ++ [Event.log LogPrio.info "eSE GTO: using %s\n",
          Event.spi_setup, Event.log LogPrio.err "failed to set up se-gto.\n"] ∧
        w1.heap ctx = some (E.spi_setup c).2) ∧
      (∀ ev ∈ w1.trace.drop w.trace.length,
        ev ≠ Event.isot1_reset ∧ ∀ a r, ev ≠ Event.isot1_get_atr a r) := by
  unfold se_gto_open
  simp only [hctx]
  by_cases h : (E.spi_setup c).1 < 0
  · rw [if_pos h]
    refine ⟨_, _, rfl, ?_, ?_, ?_, ?_⟩
    · constructor
      · intro h0
        exact absurd h0 (by decide)
      · intro h0
        omega
    · intro h0
      omega
    · intro _
      exact ⟨rfl, rfl, store_same _ _ _⟩
    · intro ev hev
      simp only [List.drop_left, List.mem_cons, List.mem_singleton] at hev
      rcases hev with rfl | rfl | rfl | hev
      · simp
      · simp
      · simp
      · simp at hev
  · rw [if_neg h]
    refine ⟨_, _, rfl, ?_, ?_, ?_, ?_⟩
    · constructor
      · intro _
        omega
      · intro _
        rfl
    · intro _
      exact ⟨rfl, store_same _ _ _⟩
    · intro h0
      exact absurd h0 h
    · intro ev hev
      simp only [List.drop_left, List.mem_cons, List.mem_singleton] at hev
      rcases hev with rfl | rfl | rfl | rfl | hev
      · simp
      · simp
      · simp
      · simp
      · simp at hev

/-- Witness of C7: a channel setup that succeeds on the sample world. -/
theorem se_gto_open_spec_witness :
    (sampleWorld 0).heap 1 = some sampleCtx ∧
    ∃ ret w1, se_gto_open (sampleCallees 0 [] none 64) (sampleWorld 0) 1 = some (ret, w1) ∧
      (ret = 0 ↔ 0 ≤ ((sampleCallees 0 [] none 64).spi_setup sampleCtx).1) ∧
      (0 ≤ ((sampleCallees 0 [] none 64).spi_setup sampleCtx).1 →
        w1.trace = (sampleWorld 0).trace ++ [Event.log LogPrio.info "eSE GTO: using %s\n",
          Event.spi_setup, Event.isot1_bind 0x2 0x1, Event.log LogPrio.dbg "fd: spi=%d\n"] ∧
        w1.heap 1 = some { ((sampleCallees 0 [] none 64).spi_setup sampleCtx).2 with
          t1 := (sampleCallees 0 [] none 64).isot1_bind
            ((sampleCallees 0 [] none 64).spi_setup sampleCtx).2.t1 0x2 0x1 }) ∧
      (((sampleCallees 0 [] none 64).spi_setup sampleCtx).1 < 0 →
        ret = -1 ∧
        w1.trace = (sampleWorld 0).trace ++ [Event.log LogPrio.info "eSE GTO: using %s\n",
          Event.spi_setup, Event.log LogPrio.err "failed to set up se-gto.\n"] ∧
        w1.heap 1 = some ((sampleCallees 0 [] none 64).spi_setup sampleCtx).2) ∧
      (∀ ev ∈ w1.trace.drop (sampleWorld 0).trace.length,
        ev ≠ Event.isot1_reset ∧ ∀ a r, ev ≠ Event.isot1_get_atr a r) :=
  ⟨rfl, se_gto_open_spec (sampleCallees 0 [] none 64) (sampleWorld 0) 1 sampleCtx rfl⟩

/-! ## Reset -/

/-- C8: on a live context `se_gto_reset` invokes `isot1_reset` once.  If it
returns `-e` for an `int` `e > 0`, the call returns `-e` with `errno = e`
and `isot1_get_atr` is not invoked.  Otherwise it invokes `isot1_get_atr`
once, on the link state left by the reset and with the buffer and capacity
of the caller, and returns its result; `errno` is `e` when that result is
`-e` for an `int` `e > 0`, and untouched when it is not negative. -/
theorem se_gto_reset_spec {T1 : Type} (E : Callees T1) (w : World T1) (ctx atr : Ptr)
    (r : Nat) (c : se_gto_ctx T1) (hctx : w.heap ctx = some c) :
    (∀ e : Int, 0 < e → e ≤ INT_MAX → (E.isot1_reset c.t1).1 = -e →
      ∃ w1, se_gto_reset E w ctx atr r = some (-e, w1) ∧ w1.errno = e ∧
        w1.trace = w.trace ++ [Event.isot1_reset]) ∧
    (0 ≤ (E.isot1_reset c.t1).1 →
      ∃ w1, se_gto_reset E w ctx atr r =
          some ((E.isot1_get_atr (E.isot1_reset c.t1).2 (w.mem atr) r).1, w1) ∧
        w1.trace = w.trace ++ [Event.isot1_reset, Event.isot1_get_atr atr r] ∧
        w1.mem atr = (E.isot1_get_atr (E.isot1_reset c.t1).2 (w.mem atr) r).2.1 ∧
        (∀ e : Int, 0 < e → e ≤ INT_MAX →
          (E.isot1_get_atr (E.isot1_reset c.t1).2 (w.mem atr) r).1 = -e → w1.errno = e) ∧
        (0 ≤ (E.isot1_get_atr (E.isot1_reset c.t1).2 (w.mem atr) r).1 →
          w1.errno = w.errno)) := by
  constructor
  · intro e he0 he1 hres
    unfold INT_MAX at he1
    unfold se_gto_reset
    simp only [hctx, hres]
    rw [if_pos (by omega)]
    refine ⟨_, rfl, ?_, rfl⟩
    simp only [neg_neg]
    exact toInt32_of_range e (by omega) he1
  · intro h0
    unfold se_gto_reset
    simp only [hctx]
    rw [if_neg (by omega)]
    by_cases hg : (E.isot1_get_atr (E.isot1_reset c.t1).2 (w.mem atr) r).1 < 0
    · rw [if_pos hg]
      refine ⟨_, rfl, ?_, store_same _ _ _, ?_, ?_⟩
      · simp
      · intro e he0 he1 hres
        unfold INT_MAX at he1
        simp only [hres, neg_neg]
        exact toInt32_of_range e (by omega) he1
      · intro h
        omega
    · rw [if_neg hg]
      refine ⟨_, rfl, ?_, store_same _ _ _, ?_, ?_⟩
      · simp
      · intro e he0 he1 hres
        omega
      · intro _
        rfl

/-- Witness of C8: a reset that fails with `-5`, and a reset followed by an
ATR retrieval that both return `0`. -/
theorem se_gto_reset_spec_witness :
    ((sampleWorld 0).heap 1 = some sampleCtx ∧ (0 : Int) < 5 ∧ (5 : Int) ≤ INT_MAX ∧
      ((sampleCallees (-5) [] none 64).isot1_reset sampleCtx.t1).1 = -5 ∧
      ∃ w1, se_gto_reset (sampleCallees (-5) [] none 64) (sampleWorld 0) 1 200 33
          = some (-5, w1) ∧ w1.errno = 5 ∧
        w1.trace = (sampleWorld 0).trace ++ [Event.isot1_reset]) ∧
    ((sampleWorld 0).heap 1 = some sampleCtx ∧
      0 ≤ ((sampleCallees 0 [0x3B] none 64).isot1_reset sampleCtx.t1).1 ∧
      ∃ w1, se_gto_reset (sampleCallees 0 [0x3B] none 64) (sampleWorld 0) 1 200 33 =
          some (((sampleCallees 0 [0x3B] none 64).isot1_get_atr
            ((sampleCallees 0 [0x3B] none 64).isot1_reset sampleCtx.t1).2
            ((sampleWorld 0).mem 200) 33).1, w1) ∧
        w1.trace = (sampleWorld 0).trace ++ [Event.isot1_reset, Event.isot1_get_atr 200 33] ∧
        w1.mem 200 = ((sampleCallees 0 [0x3B] none 64).isot1_get_atr
            ((sampleCallees 0 [0x3B] none 64).isot1_reset sampleCtx.t1).2
            ((sampleWorld 0).mem 200) 33).2.1 ∧
        (∀ e : Int, 0 < e → e ≤ INT_MAX →
          ((sampleCallees 0 [0x3B] none 64).isot1_get_atr
            ((sampleCallees 0 [0x3B] none 64).isot1_reset sampleCtx.t1).2
            ((sampleWorld 0).mem 200) 33).1 = -e → w1.errno = e) ∧
        (0 ≤ ((sampleCallees 0 [0x3B] none 64).isot1_get_atr
            ((sampleCallees 0 [0x3B] none 64).isot1_reset sampleCtx.t1).2
            ((sampleWorld 0).mem 200) 33).1 → w1.errno = (sampleWorld 0).errno)) :=
  ⟨⟨rfl, by decide, by decide, rfl,
    (se_gto_reset_spec (sampleCallees (-5) [] none 64) (sampleWorld 0) 1 200 33 sampleCtx
      rfl).1 5 (by decide) (by decide) rfl⟩,
   ⟨rfl, by decide,
    (se_gto_reset_spec (sampleCallees 0 [0x3B] none 64) (sampleWorld 0) 1 200 33 sampleCtx
      rfl).2 (by decide)⟩⟩

/-! ## User data -/

/-- C9: for a non-null live context, after `se_gto_set_userdata (ctx, p)` the
call `se_gto_get_userdata (ctx)` returns `p`; the log level, log function,
device identifier and link state of the context, every other context, the
buffers, `errno` and the trace are unchanged.  For a null context
`se_gto_get_userdata` returns `NULL` and `se_gto_set_userdata` changes
nothing. -/
theorem se_gto_userdata_roundtrip {T1 : Type} (w : World T1) (ctx p : Ptr) :
    (∀ c : se_gto_ctx T1, ctx ≠ 0 → w.heap ctx = some c →
      ∃ w1 c1, se_gto_set_userdata w ctx p = some w1 ∧
        se_gto_get_userdata w1 ctx = some p ∧
        w1.heap ctx = some c1 ∧ c1.userdata = p ∧
        c1.log_level = c.log_level ∧ c1.log_fn = c.log_fn ∧ c1.gtodev = c.gtodev ∧
        c1.t1 = c.t1 ∧
        (∀ q, q ≠ ctx → w1.heap q = w.heap q) ∧
        w1.mem = w.mem ∧ w1.errno = w.errno ∧ w1.trace = w.trace) ∧
    se_gto_get_userdata w 0 = some 0 ∧
    se_gto_set_userdata w 0 p = some w := by
  refine ⟨?_, ?_, ?_⟩
  · intro c hne hctx
    refine ⟨{ w with heap := store w.heap ctx (some { c with userdata := p }) },
      { c with userdata := p }, ?_, ?_, store_same _ _ _, rfl, rfl, rfl, rfl, rfl, ?_,
      rfl, rfl, rfl⟩
    · simp [se_gto_set_userdata, hne, hctx]
    · simp [se_gto_get_userdata, hne, store_same]
    · intro q hq
      exact store_other _ _ _ _ hq
  · simp [se_gto_get_userdata]
  · simp [se_gto_set_userdata]

/-- Witness of C9: attaching the pointer `4096` to the sample context. -/
theorem se_gto_userdata_roundtrip_witness :
    ((1 : Ptr) ≠ 0 ∧ (sampleWorld 0).heap 1 = some sampleCtx) ∧
    ∃ w1 c1, se_gto_set_userdata (sampleWorld 0) 1 4096 = some w1 ∧
      se_gto_get_userdata w1 1 = some 4096 ∧
      w1.heap 1 = some c1 ∧ c1.userdata = 4096 ∧
      c1.log_level = sampleCtx.log_level ∧ c1.log_fn = sampleCtx.log_fn ∧
      c1.gtodev = sampleCtx.gtodev ∧ c1.t1 = sampleCtx.t1 ∧
      (∀ q, q ≠ 1 → w1.heap q = (sampleWorld 0).heap q) ∧
      w1.mem = (sampleWorld 0).mem ∧ w1.errno = (sampleWorld 0).errno ∧
      w1.trace = (sampleWorld 0).trace :=
  ⟨⟨by decide, rfl⟩,
   (se_gto_userdata_roundtrip (sampleWorld 0) 1 4096).1 sampleCtx (by decide) rfl⟩

/-! ## Creation and the verbosity of the environment -/

/-- The characters that `Nat.digitChar` gives for `0..9` are decimal digits
with the right value, and are neither white space nor a sign. -/
theorem digitChar_spec : ∀ d : Nat, d < 10 →
    isdigit (Nat.digitChar d) = true ∧ (Nat.digitChar d).toNat - 48 = d ∧
    isspace (Nat.digitChar d) = false ∧ (Nat.digitChar d).toNat ≠ 45 ∧
    (Nat.digitChar d).toNat ≠ 43 := by
  decide

/-- The characters that `Nat.toDigitsCore` puts in front of `ds` start with a
digit, and the digit loop of `strtol` reads them as the number `n`. -/
theorem toDigitsCore_scan (fuel : Nat) : ∀ (n : Nat) (ds : List Char), n < fuel →
    ∃ pre : List Char, Nat.toDigitsCore 10 fuel n ds = pre ++ ds ∧
      (∃ d, d < 10 ∧ pre.head? = some (Nat.digitChar d)) ∧
      ∀ (acc : Nat) (rest : List Char),
        scanDigits acc (pre ++ rest) = scanDigits (acc * 10 ^ pre.length + n) rest := by
  induction fuel with
  | zero => intro n ds h; omega
  | succ fuel ih =>
    intro n ds hn
    have hd := digitChar_spec (n % 10) (Nat.mod_lt _ (by decide))
    by_cases h0 : n / 10 = 0
    · refine ⟨[Nat.digitChar (n % 10)], ?_, ⟨n % 10, Nat.mod_lt _ (by decide), rfl⟩, ?_⟩
      · simp [Nat.toDigitsCore, h0]
      · intro acc rest
        have hn' : n % 10 = n := by omega
        rw [hn'] at hd ⊢
        simp [scanDigits, hd.1, hd.2.1]
    · have hlt : n / 10 < fuel := by omega
      obtain ⟨pre, hpre, hhead, hscan⟩ := ih (n / 10) (Nat.digitChar (n % 10) :: ds) hlt
      refine ⟨pre ++ [Nat.digitChar (n % 10)], ?_, ?_, ?_⟩
      · simp [Nat.toDigitsCore, h0, hpre]
      · obtain ⟨d, hd10, hh⟩ := hhead
        refine ⟨d, hd10, ?_⟩
        cases pre with
        | nil => simp at hh
        | cons a t => simpa using hh
      · intro acc rest
        rw [List.append_assoc, hscan]
        simp only [List.singleton_append, scanDigits, hd.1, if_true, hd.2.1, List.length_append,
          List.length_singleton, pow_succ]
        congr 1
        have := Nat.div_add_mod n 10
        nlinarith [Nat.div_add_mod n 10]

/-- The function `strtol` reads the decimal numeral of `v` as `v`, up to its
end, when `v` fits in a `long`. -/
theorem strtol_toDigits (bits : Nat) (v : Nat) (hv : (v : Int) ≤ LONG_MAX bits) :
    strtol bits (Nat.toDigits 10 v) = ((v : Int), []) := by
  obtain ⟨pre, hpre, ⟨d, hd10, hhead⟩, hscan⟩ := toDigitsCore_scan (v + 1) v [] (by omega)
  have hd := digitChar_spec d hd10
  have htd : Nat.toDigits 10 v = pre := by
    unfold Nat.toDigits
    rw [hpre, List.append_nil]
  rw [htd]
  cases pre with
  | nil => simp at hhead
  | cons a t =>
    simp only [List.head?_cons, Option.some.injEq] at hhead
    subst hhead
    have hs := hscan 0 []
    simp only [List.append_nil, zero_mul, zero_add] at hs
    have hmin : LONG_MIN bits ≤ (v : Int) := by
      unfold LONG_MIN
      have : (0 : Int) < 2 ^ (bits - 1) := by positivity
      omega
    unfold strtol
    simp only [List.dropWhile, hd.2.2.1, hd.2.2.2.1, hd.2.2.2.2, hd.1, hs, decide_False,
      Bool.or_self, if_false, if_true, Bool.false_eq_true]
    simp [scanDigits, not_lt.mpr hv, not_lt.mpr hmin]


/-- The function `log_level` maps the decimal numeral of `v` to `v` when `v`
fits in an `int`. -/
theorem log_level_numeral (bits : Nat) (v : Nat) (hb : 32 ≤ bits) (hv : (v : Int) ≤ INT_MAX) :
    log_level bits (Nat.repr v) = (v : Int) := by
  unfold INT_MAX at hv
  have hpow : (2 : Int) ^ 31 ≤ 2 ^ (bits - 1) := by
    exact_mod_cast Nat.pow_le_pow_right (by decide) (by omega : 31 ≤ bits - 1)
  have hlong : (v : Int) ≤ LONG_MAX bits := by
    unfold LONG_MAX
    norm_num at hpow
    omega
  have hlist : (Nat.repr v).toList = Nat.toDigits 10 v := rfl
  unfold log_level
  rw [hlist, strtol_toDigits bits v hlong]
  simp only [if_true]
  exact toInt32_of_range _ (by omega) hv

/-- C10 (counterexample): with a 64-bit `long` and `SE_GTO_LOG` set to the
decimal numeral of `2147483648`, the created context has log level `0`,
while `min (2147483648, 4)` is `4`. -/
theorem se_gto_new_log_level_large_numeral :
    se_gto_get_log_level
      (se_gto_new (sampleCallees 0 [] (some (Nat.repr 2147483648)) 64) (sampleWorld 0)).2.2
      (sampleCallees 0 [] (some (Nat.repr 2147483648)) 64).calloc = some 0 ∧
    (some (0 : Int)) ≠ some (((min 2147483648 4 : Nat) : Int)) ∧
    Nat.repr 2147483648 = "2147483648" := by
  decide

/-- C10 (amended): when the allocation succeeds `se_gto_new` returns `0` and
stores the new context.  Its log level is `2` when `SE_GTO_LOG` is unset; it
is `min (v, 4)` when `SE_GTO_LOG` is the decimal numeral of a non-negative
integer `v` that is at most `INT_MAX` (for a `long` of 32 bits or more); and
in every case it lies within `0..4`. -/
theorem se_gto_new_log_level {T1 : Type} (E : Callees T1) (w : World T1)
    (hc : E.calloc ≠ 0) :
    (se_gto_new E w).1 = 0 ∧ (se_gto_new E w).2.1 = some E.calloc ∧
    (E.getenv_SE_GTO_LOG = none →
      se_gto_get_log_level (se_gto_new E w).2.2 E.calloc = some 2) ∧
    (∀ v : Nat, 32 ≤ E.long_bits → (v : Int) ≤ INT_MAX →
      E.getenv_SE_GTO_LOG = some (Nat.repr v) →
      se_gto_get_log_level (se_gto_new E w).2.2 E.calloc = some (((min v 4 : Nat) : Int))) ∧
    (∃ l : Int, se_gto_get_log_level (se_gto_new E w).2.2 E.calloc = some l ∧
      0 ≤ l ∧ l ≤ 4) := by
  unfold se_gto_new
  simp only [if_neg hc]
  refine ⟨trivial, trivial, ?_, ?_, ?_⟩
  · intro henv
    simp [se_gto_get_log_level, store_same, henv]
  · intro v hb hv henv
    simp only [se_gto_get_log_level, store_same, henv, se_gto_ctx.set_log_level,
      log_level_numeral _ v hb hv]
    congr 1
    split_ifs <;> omega
  · cases henv : E.getenv_SE_GTO_LOG with
    | none =>
      refine ⟨2, ?_, by decide, by decide⟩
      simp [se_gto_get_log_level, store_same]
    | some env =>
      refine ⟨if log_level E.long_bits env < 0 then 0
          else if log_level E.long_bits env > 4 then 4 else log_level E.long_bits env,
        ?_, ?_, ?_⟩
      · simp only [se_gto_get_log_level, store_same, se_gto_ctx.set_log_level]
      · split_ifs <;> omega
      · split_ifs <;> omega

/-- Witness of C10 (amended): `SE_GTO_LOG=7` on a platform with a 64-bit
`long`. -/
theorem se_gto_new_log_level_witness :
    (sampleCallees 0 [] (some (Nat.repr 7)) 64).calloc ≠ 0 ∧
    32 ≤ (sampleCallees 0 [] (some (Nat.repr 7)) 64).long_bits ∧
    ((7 : Nat) : Int) ≤ INT_MAX ∧
    (sampleCallees 0 [] (some (Nat.repr 7)) 64).getenv_SE_GTO_LOG = some (Nat.repr 7) ∧
    se_gto_get_log_level
      (se_gto_new (sampleCallees 0 [] (some (Nat.repr 7)) 64) (sampleWorld 0)).2.2
      (sampleCallees 0 [] (some (Nat.repr 7)) 64).calloc = some (((min 7 4 : Nat) : Int)) :=
  ⟨by decide, by decide, by decide, rfl,
   (se_gto_new_log_level (sampleCallees 0 [] (some (Nat.repr 7)) 64) (sampleWorld 0)
      (by decide)).2.2.2.1 7 (by decide) (by decide) rfl⟩

end SeGto
